import Mathlib

/-!
Verification of the Flashy Flesh ESP32 firmware control core
(src/firmware/main.ino) against its natural-language specification.

The firmware is shallowly embedded: `float` values become `ℚ`, `millis()`
timestamps become `ℕ` (milliseconds, assumed monotone without 32-bit
wraparound within a session), and each hardware write performed by a
function is recorded in an `Emitted` record whose fields are `Option`s:
`some v` means the channel was written with value `v` this call, `none`
means the channel was not written (so it retains its previous value).
-/

namespace FlashyFlesh

/-- Safety constant from main.ino line 59: absolute maximum strobe rate. -/
def STROBE_MAX_HZ : ℚ := 4

/-- Safety constant from main.ino line 61: 11 minute hard session cutoff, seconds. -/
def SESSION_MAX_S : ℕ := 660

/-- Safety constant from main.ino line 62: fade out during the last 2 minutes, seconds. -/
def FADE_OUT_S : ℕ := 120

/-- Consent hold duration in milliseconds (main.ino line 229: held at least 3000). -/
def CONSENT_HOLD_MS : ℕ := 3000

/-- The global mutable record `struct MachineState` of main.ino lines 69-83.
`session_start` is a millisecond timestamp with 0 as the "unset" sentinel,
exactly as in the source. -/
structure MachineState where
  disk1_rpm : ℚ
  disk2_rpm : ℚ
  disk3_rpm : ℚ
  strobe_hz : ℚ
  strobe_int : ℚ
  spot_r : ℕ
  spot_g : ℕ
  spot_b : ℕ
  led_bright : ℚ
  active : Bool
  consent : Bool
  session_start : ℕ
  preset_name : String
deriving DecidableEq

/-- The default-initialised state of the source struct. -/
def initState : MachineState :=
  { disk1_rpm := 0, disk2_rpm := 0, disk3_rpm := 0
    strobe_hz := 0, strobe_int := 0
    spot_r := 0, spot_g := 0, spot_b := 0
    led_bright := 1
    active := false, consent := false
    session_start := 0
    preset_name := "idle" }

/-- The strobe-timer ISR `onStrobeTimer` (main.ino lines 92-96): sets the
`strobe_pulse` flag only when the machine is active and the stored strobe
frequency is in (0, STROBE_MAX_HZ]; otherwise the flag is left as it was. -/
def onStrobeTimer (s : MachineState) (strobe_pulse : Bool) : Bool :=
  if s.active = true ∧ 0 < s.strobe_hz ∧ s.strobe_hz ≤ STROBE_MAX_HZ then true
  else strobe_pulse

/-- A C-style `(int)` cast of a `float`: truncation toward zero, which for
a rational in lowest terms is T-division of numerator by denominator. -/
def cInt (q : ℚ) : ℤ := Int.tdiv q.num (q.den : ℤ)

/-- The Arduino `min` macro `((a)<(b)?(a):(b))`. -/
def cMin (a b : ℚ) : ℚ := if a < b then a else b

/-- The Arduino `abs` macro. -/
def cAbs (q : ℚ) : ℚ := if q < 0 then -q else q

/-- The Arduino `constrain(x, lo, hi)` macro on `int`. -/
def constrain (x lo hi : ℤ) : ℤ := if x < lo then lo else if hi < x then hi else x

/-- The strobe frequency actually applied by `setStrobeFrequency` (main.ino
lines 98-104): a non-positive request writes duty 0 (no strobe output,
applied frequency 0); otherwise the timer period is programmed from
`min(hz, STROBE_MAX_HZ)`. -/
def setStrobeFrequencyApplied (hz : ℚ) : ℚ :=
  if hz ≤ 0 then 0 else cMin hz STROBE_MAX_HZ

/-- The direction bit and PWM duty written by `setMotorRPM` (main.ino lines
107-113): direction is `rpm >= 0`, duty is `constrain((int)(abs(rpm)/15*255), 0, 255)`. -/
def setMotorRPM (rpm : ℚ) : Bool × ℤ :=
  (decide (0 ≤ rpm), constrain (cInt (cAbs rpm / 15 * 255)) 0 255)

/-- One call's worth of hardware writes. `none` = channel not written this
call (it keeps its previous value); `some v` = written with `v`.
`ledFillBlack` records the `fill_solid(leds, NUM_LEDS, CRGB::Black)` +
`FastLED.show()` pair of the inactive branch. -/
structure Emitted where
  motor1 : Option (Bool × ℤ)
  motor2 : Option (Bool × ℤ)
  motor3 : Option (Bool × ℤ)
  strobe : Option ℚ
  spot_r : Option ℤ
  spot_g : Option ℤ
  spot_b : Option ℤ
  ledBrightness : Option ℤ
  ledFillBlack : Bool
deriving DecidableEq

/-- No hardware write at all (the session-cutoff early return). -/
def noEmit : Emitted :=
  { motor1 := none, motor2 := none, motor3 := none, strobe := none
    spot_r := none, spot_g := none, spot_b := none
    ledBrightness := none, ledFillBlack := false }

/-- The writes performed by the `!state.active` branch of `applyState`
(main.ino lines 117-125): motors to zero, strobe to zero, LED strip filled
black. Note the spotlight PWM channels are not written in this branch. -/
def inactiveEmit : Emitted :=
  { motor1 := some (setMotorRPM 0), motor2 := some (setMotorRPM 0)
    motor3 := some (setMotorRPM 0)
    strobe := some (setStrobeFrequencyApplied 0)
    spot_r := none, spot_g := none, spot_b := none
    ledBrightness := none, ledFillBlack := true }

/-- The writes performed by the active tail of `applyState` (main.ino lines
139-146), with `brightness` the already-faded brightness value. -/
def activeEmit (s : MachineState) (brightness : ℚ) : Emitted :=
  { motor1 := some (setMotorRPM s.disk1_rpm)
    motor2 := some (setMotorRPM (-s.disk2_rpm))
    motor3 := some (setMotorRPM s.disk3_rpm)
    strobe := some (setStrobeFrequencyApplied (cMin s.strobe_hz STROBE_MAX_HZ))
    spot_r := some (cInt ((s.spot_r : ℚ) * brightness))
    spot_g := some (cInt ((s.spot_g : ℚ) * brightness))
    spot_b := some (cInt ((s.spot_b : ℚ) * brightness))
    ledBrightness := some (cInt ((255 : ℚ) * brightness))
    ledFillBlack := false }

/-- Elapsed whole seconds `(millis() - state.session_start) / 1000`
(main.ino line 129). -/
def elapsedS (now start : ℕ) : ℕ := (now - start) / 1000

/-- `applyState` (main.ino lines 116-147): returns the possibly-mutated
state together with the writes performed. Mirrors the source exactly:
inactive branch zeroes motors, strobe and the LED strip then returns;
crossing `SESSION_MAX_S` clears `active` and returns without any write;
otherwise the fade window scales brightness and the full write set runs. -/
def applyState (s : MachineState) (now : ℕ) : MachineState × Emitted :=
  if s.active = false then (s, inactiveEmit)
  else if 0 < s.session_start then
    if SESSION_MAX_S < elapsedS now s.session_start then ({ s with active := false }, noEmit)
    else if SESSION_MAX_S - FADE_OUT_S < elapsedS now s.session_start then
      (s, activeEmit s (s.led_bright *
        (1 - ((elapsedS now s.session_start - (SESSION_MAX_S - FADE_OUT_S) : ℕ) : ℚ) /
          (FADE_OUT_S : ℚ))))
    else (s, activeEmit s s.led_bright)
  else (s, activeEmit s s.led_bright)

/-- `loadPreset` (main.ino lines 150-173): stamps `preset_name` with the
requested name unconditionally, then overwrites the control fields only for
the five known presets; an unknown name changes nothing else. -/
def loadPreset (name : String) (s : MachineState) : MachineState :=
  let s1 := { s with preset_name := name }
  if name = "alpha_bloom" then
    { s1 with disk1_rpm := 10, disk2_rpm := 10.6, disk3_rpm := 2
              strobe_hz := 0.5, strobe_int := 0.6
              spot_r := 0, spot_g := 80, spot_b := 120 }
  else if name = "theta_dive" then
    { s1 with disk1_rpm := 6, disk2_rpm := 6.35, disk3_rpm := 1.5
              strobe_hz := 0.3, strobe_int := 0.7
              spot_r := 40, spot_g := 0, spot_b := 120 }
  else if name = "oceanic" then
    { s1 with disk1_rpm := 4, disk2_rpm := 4.2, disk3_rpm := 1
              strobe_hz := 0.1, strobe_int := 0.4
              spot_r := 0, spot_g := 20, spot_b := 100 }
  else if name = "gamma_flash" then
    { s1 with disk1_rpm := 12, disk2_rpm := 12.7, disk3_rpm := 3
              strobe_hz := 3, strobe_int := 1
              spot_r := 200, spot_g := 200, spot_b := 200 }
  else if name = "integration" then
    { s1 with disk1_rpm := 7, disk2_rpm := 7.4, disk3_rpm := 2
              strobe_hz := 0, strobe_int := 0
              spot_r := 100, spot_g := 60, spot_b := 10 }
  else s1

/-- The five preset names recognised by `loadPreset`. -/
def knownPresets : List String :=
  ["alpha_bloom", "theta_dive", "oceanic", "gamma_flash", "integration"]

/-- The `POST /preset` handler body (main.ino lines 192-202): loads the
named preset and always replies HTTP 200 with an ok body (there is no
error path for an unknown name). -/
def presetHandler (name : String) (s : MachineState) : MachineState × ℕ :=
  (loadPreset name s, 200)

/-- `checkConsentButton` (main.ino lines 221-241), with the blocking poll
loop abstracted by its observable outcome: `heldMs` is the length of the
continuous hold that begins at `now`. A hold reaching 3000 ms activates at
that moment (`session_start = now + 3000`), sets `active` and `consent`,
and loads the default preset; a shorter hold (or no press) changes nothing.
The source performs no check of the current `active` flag. -/
def checkConsentButton (s : MachineState) (heldMs now : ℕ) : MachineState :=
  if CONSENT_HOLD_MS ≤ heldMs then
    loadPreset "alpha_bloom"
      { s with active := true, consent := true, session_start := now + CONSENT_HOLD_MS }
  else s

/-- The asserted branch of `checkEmergencyStop` (main.ino lines 244-252),
taken when both encoder buttons read LOW: clears `active` and `consent`
and immediately runs `applyState`. `session_start` is not touched. -/
def checkEmergencyStop (s : MachineState) (now : ℕ) : MachineState × Emitted :=
  applyState { s with active := false, consent := false } now

/-- The `POST /stop` handler body (main.ino lines 211-215): clears `active`
(but not `consent`) and immediately runs `applyState`. -/
def stopHandler (s : MachineState) (now : ℕ) : MachineState × Emitted :=
  applyState { s with active := false } now

/-- A pending web request, as seen by `server.handleClient()`. -/
inductive WebReq where
  | status
  | preset (name : String)
  | script
  | stop
deriving DecidableEq

/-- Effect of `server.handleClient()` on the machine state for one pending
request (main.ino lines 176-218). `status` and `script` do not touch
MachineState; `preset` runs `loadPreset`; `stop` runs the stop handler,
which itself emits via `applyState`. -/
def handleWeb (s : MachineState) (now : ℕ) : Option WebReq → MachineState × Option Emitted
  | none => (s, none)
  | some WebReq.status => (s, none)
  | some (WebReq.preset name) => (loadPreset name s, none)
  | some WebReq.script => (s, none)
  | some WebReq.stop => ((stopHandler s now).1, some (stopHandler s now).2)

/-- The external inputs sampled during one iteration of `loop()`.
`isrFire` models the hardware strobe timer alarm firing during the delay
that precedes this iteration (the ISR then runs on the state entering the
iteration). -/
structure TickInput where
  webReq : Option WebReq
  consentHeldMs : ℕ
  estop : Bool
  isrFire : Bool
  now : ℕ

/-- Everything one `loop()` iteration writes to hardware, stage by stage:
the stop-handler's `applyState` writes (if a stop request was pending), the
emergency-stop's `applyState` writes (if the override held), the strobe
pulse duty (if the pulse flag was consumed), and the final `applyState`
writes. -/
structure TickOut where
  webEmit : Option Emitted
  estopEmit : Option Emitted
  pulse : Option ℤ
  finalEmit : Emitted
deriving DecidableEq

/-- One iteration of `loop()` (main.ino lines 304-319), in source order:
`server.handleClient()`, `checkConsentButton()`, `checkEmergencyStop()`,
the pending strobe-pulse emission (duty `(int)(strobe_int * 255)`), then
`applyState()`. Returns the new state, the new pulse flag (consumed /
still clear), and the writes of each stage. -/
def tick (s : MachineState) (strobe_pulse : Bool) (inp : TickInput) :
    MachineState × Bool × TickOut :=
  let armed := if inp.isrFire then onStrobeTimer s strobe_pulse else strobe_pulse
  let w := handleWeb s inp.now inp.webReq
  let s2 := checkConsentButton w.1 inp.consentHeldMs inp.now
  let est :=
    if inp.estop then
      ((checkEmergencyStop s2 inp.now).1, some (checkEmergencyStop s2 inp.now).2)
    else (s2, (none : Option Emitted))
  let pulse : Option ℤ := if armed then some (cInt (est.1.strobe_int * 255)) else none
  let fin := applyState est.1 inp.now
  (fin.1, false, { webEmit := w.2, estopEmit := est.2, pulse := pulse, finalEmit := fin.2 })

/-- Run a sequence of loop iterations, collecting each iteration's writes. -/
def runTicks : MachineState → Bool → List TickInput → List TickOut
  | _, _, [] => []
  | s, fl, inp :: rest =>
    let r := tick s fl inp
    r.2.2 :: runTicks r.1 r.2.1 rest

/-!
## Theorems

The `Rat` arithmetic operations and the scientific-literal constructor are
`@[irreducible]` in the ambient library, which blocks `decide` from
evaluating the embedded firmware on concrete inputs; within this section
they are restored to their definitional (semireducible) status. This does
not change any definition, only reduction behaviour during elaboration.
-/

section DecideOnRat

attribute [local semireducible] Rat.mul Rat.add Rat.sub Rat.inv Rat.ofScientific

/-- `cMin` agrees with the order-theoretic minimum. -/
theorem cMin_eq_min (a b : ℚ) : cMin a b = min a b := by
  unfold cMin
  split_ifs with h
  · exact (min_eq_left h.le).symm
  · exact (min_eq_right (not_lt.mp h)).symm

/-- A state whose `active` flag is false takes the quiescent branch of
`applyState`: the state is returned unchanged and `inactiveEmit` is written. -/
theorem applyState_not_active (s : MachineState) (now : ℕ) (h : s.active = false) :
    applyState s now = (s, inactiveEmit) := by
  unfold applyState
  rw [if_pos h]

/-- Closed form of the asserted emergency-stop branch. -/
theorem checkEmergencyStop_eq (s : MachineState) (now : ℕ) :
    checkEmergencyStop s now = ({ s with active := false, consent := false }, inactiveEmit) := by
  cases s
  rfl

/-- Closed form of the stop-request handler. -/
theorem stopHandler_eq (s : MachineState) (now : ℕ) :
    stopHandler s now = ({ s with active := false }, inactiveEmit) := by
  cases s
  rfl

/-! ## Claim C1 -/

/-- Claim C1: for every requested strobe frequency, the frequency applied by
`setStrobeFrequency` equals `min(max(requested, 0), STROBE_MAX_HZ)` and so
lies in `[0, STROBE_MAX_HZ]`; in particular a request of `1e9` is applied as
`STROBE_MAX_HZ` and a request of `-5` yields no strobe output (applied 0). -/
theorem strobe_clamp_correct (hz : ℚ) :
    setStrobeFrequencyApplied hz = min (max hz 0) STROBE_MAX_HZ
    ∧ 0 ≤ setStrobeFrequencyApplied hz
    ∧ setStrobeFrequencyApplied hz ≤ STROBE_MAX_HZ
    ∧ setStrobeFrequencyApplied 1000000000 = STROBE_MAX_HZ
    ∧ setStrobeFrequencyApplied (-5) = 0 := by
  have hmain : setStrobeFrequencyApplied hz = min (max hz 0) STROBE_MAX_HZ := by
    unfold setStrobeFrequencyApplied
    rcases le_or_lt hz 0 with h | h
    · rw [if_pos h, max_eq_right h]
      norm_num [STROBE_MAX_HZ]
    · rw [if_neg (not_le.mpr h), max_eq_left h.le, cMin_eq_min]
  refine ⟨hmain, ?_, ?_, by norm_num [setStrobeFrequencyApplied, cMin, STROBE_MAX_HZ],
    by norm_num [setStrobeFrequencyApplied]⟩
  · rw [hmain]
    exact le_min (le_max_right hz 0) (by norm_num [STROBE_MAX_HZ])
  · rw [hmain]
    exact min_le_right _ _

/-! ## Claim C2 -/

/-- An inactive machine state whose stored fields are all non-zero (the
gamma_flash values), as left behind by a deactivation. -/
def s_c2 : MachineState :=
  { initState with disk1_rpm := 12, disk2_rpm := 12.7, disk3_rpm := 3
                   strobe_hz := 3, strobe_int := 1
                   spot_r := 200, spot_g := 200, spot_b := 200
                   preset_name := "gamma_flash" }

/-- Claim C2 (code bug): with `active = false`, `applyState` zeroes the three
disk motors, the strobe, and the LED strip, but performs no write at all to
the spotlight PWM channels, so a previously non-zero spotlight output keeps
shining; the claimed all-channel quiescent emission does not happen. -/
theorem applyState_inactive_spotlights_not_written :
    s_c2.active = false ∧ s_c2.spot_r = 200
    ∧ (applyState s_c2 0).2.spot_r = none
    ∧ (applyState s_c2 0).2.spot_g = none
    ∧ (applyState s_c2 0).2.spot_b = none
    ∧ (applyState s_c2 0).2.motor1 = some (true, 0)
    ∧ (applyState s_c2 0).2.motor2 = some (true, 0)
    ∧ (applyState s_c2 0).2.motor3 = some (true, 0)
    ∧ (applyState s_c2 0).2.strobe = some 0
    ∧ (applyState s_c2 0).2.ledFillBlack = true
    ∧ (applyState s_c2 0).1 = s_c2 := by
  decide

/-! ## Claim C3 -/

/-- An active session started at 1000 ms with the alpha_bloom preset. -/
def s_c3 : MachineState :=
  loadPreset "alpha_bloom" { initState with active := true, consent := true, session_start := 1000 }

/-- Claim C3 counterexample: at `now = 663000` (elapsed 662 s, past the
660 s cutoff) the tick does set `active := false`, but emits nothing at all
on that tick — every channel of the emission is `none`, not zero — so the
all-zero output claimed for the same tick does not occur. -/
theorem session_cutoff_tick_emits_nothing_cex :
    s_c3.active = true ∧ 0 < s_c3.session_start
    ∧ SESSION_MAX_S < elapsedS 663000 s_c3.session_start
    ∧ (applyState s_c3 663000).1.active = false
    ∧ (applyState s_c3 663000).2 = noEmit
    ∧ (applyState s_c3 663000).2.motor1 = none
    ∧ (applyState s_c3 663000).2.strobe = none := by
  decide

/-- Claim C3 (amended): on the tick whose elapsed active time exceeds
`SESSION_MAX_S`, `applyState` sets `active := false` and returns without any
hardware write; the quiescent output (motors and strobe zero, LED strip
black, spotlight channels not rewritten) is emitted from the next tick on. -/
theorem session_cutoff_deactivates_without_emitting (s : MachineState) (now now2 : ℕ)
    (hact : s.active = true) (hss : 0 < s.session_start)
    (hel : SESSION_MAX_S < elapsedS now s.session_start) :
    (applyState s now).1 = { s with active := false }
    ∧ (applyState s now).2 = noEmit
    ∧ (applyState (applyState s now).1 now2).2 = inactiveEmit
    ∧ (applyState (applyState s now).1 now2).1 = { s with active := false } := by
  have h1 : applyState s now = ({ s with active := false }, noEmit) := by
    unfold applyState
    rw [if_neg (by simp [hact]), if_pos hss, if_pos hel]
  have h2 : applyState ({ s with active := false }) now2 =
      ({ s with active := false }, inactiveEmit) :=
    applyState_not_active _ _ rfl
  rw [h1]
  exact ⟨rfl, rfl, by rw [h2], by rw [h2]⟩

/-- Claim C3 witness: the amended theorem at the concrete session `s_c3`. -/
theorem session_cutoff_deactivates_without_emitting_witness :
    (applyState s_c3 663000).1 = { s_c3 with active := false }
    ∧ (applyState s_c3 663000).2 = noEmit
    ∧ (applyState (applyState s_c3 663000).1 663020).2 = inactiveEmit
    ∧ (applyState (applyState s_c3 663000).1 663020).1 = { s_c3 with active := false } :=
  session_cutoff_deactivates_without_emitting s_c3 663000 663020 (by decide) (by decide)
    (by decide)

/-! ## Claim C4 -/

/-- An active consented session with a running session timer and lit
spotlights. -/
def s_c4 : MachineState :=
  { initState with active := true, consent := true, session_start := 5000
                   spot_r := 200, preset_name := "custom" }

/-- Claim C4 counterexample: the asserted emergency stop leaves
`session_start` at its old value 5000 instead of clearing it to the unset
sentinel, and performs no write to the spotlight channels, so not every
output channel is forced to its quiescent value. -/
theorem emergency_stop_keeps_session_start_cex :
    s_c4.session_start = 5000 ∧ s_c4.spot_r = 200
    ∧ (checkEmergencyStop s_c4 7000).1.session_start = 5000
    ∧ (checkEmergencyStop s_c4 7000).2.spot_r = none
    ∧ (checkEmergencyStop s_c4 7000).1.active = false
    ∧ (checkEmergencyStop s_c4 7000).1.consent = false := by
  decide

/-- Claim C4 (amended): whenever the emergency-stop override condition is
asserted, the check unconditionally sets `active := false` and
`consent := false` and immediately emits the quiescent output on the disk
motors, the strobe, and the LED strip; it does not clear `session_start`,
and the spotlight channels are not written (they keep their prior value). -/
theorem emergency_stop_effect (s : MachineState) (now : ℕ) :
    checkEmergencyStop s now = ({ s with active := false, consent := false }, inactiveEmit)
    ∧ (checkEmergencyStop s now).1.session_start = s.session_start
    ∧ inactiveEmit.motor1 = some (true, 0)
    ∧ inactiveEmit.motor2 = some (true, 0)
    ∧ inactiveEmit.motor3 = some (true, 0)
    ∧ inactiveEmit.strobe = some 0
    ∧ inactiveEmit.ledFillBlack = true
    ∧ inactiveEmit.spot_r = none ∧ inactiveEmit.spot_g = none ∧ inactiveEmit.spot_b = none := by
  refine ⟨checkEmergencyStop_eq s now, ?_, by decide, by decide, by decide, by decide,
    by decide, by decide, by decide, by decide⟩
  rw [checkEmergencyStop_eq s now]

/-! ## Claim C5 -/

/-- An active alpha_bloom session entering a tick with a pending strobe
pulse. -/
def s_c5 : MachineState :=
  loadPreset "alpha_bloom" { initState with active := true, consent := true, session_start := 3000 }

/-- A tick on which the emergency-stop override condition holds while a
preset web request is pending. -/
def inp_c5 : TickInput :=
  { webReq := some (WebReq.preset "oceanic"), consentHeldMs := 0, estop := true
    isrFire := false, now := 4000 }

/-- Claim C5 counterexample: on a tick where the override condition holds,
the pending web request is still processed (the preset fields are mutated
to the oceanic values) and the pending strobe pulse is still emitted (duty
102 from the oceanic intensity 0.4) — other components' state mutations and
outputs are applied on an override tick, and web handling precedes the
emergency-stop evaluation. -/
theorem estop_tick_other_effects_cex :
    inp_c5.estop = true
    ∧ (tick s_c5 true inp_c5).1.preset_name = "oceanic"
    ∧ (tick s_c5 true inp_c5).1.disk1_rpm = 4
    ∧ (tick s_c5 true inp_c5).2.2.pulse = some 102
    ∧ (tick s_c5 true inp_c5).1.active = false := by
  decide

/-- Claim C5 (amended): within a tick the order is web handling, consent
processing, emergency stop, pulse emission, final `applyState`. When the
override condition holds, the emergency stop deactivates the machine and
forces the quiescent output for the rest of the tick (the final emission is
the quiescent one), but the web-request and consent mutations performed
earlier in the same tick persist into the final state, and a pending strobe
pulse is still emitted after the stop. -/
theorem estop_tick_order (s : MachineState) (fl : Bool) (inp : TickInput)
    (h : inp.estop = true) :
    (tick s fl inp).1 =
      { checkConsentButton (handleWeb s inp.now inp.webReq).1 inp.consentHeldMs inp.now with
          active := false, consent := false }
    ∧ (tick s fl inp).1.active = false
    ∧ (tick s fl inp).1.consent = false
    ∧ (tick s fl inp).2.2.estopEmit = some inactiveEmit
    ∧ (tick s fl inp).2.2.finalEmit = inactiveEmit
    ∧ (tick s fl inp).2.2.pulse =
        (if (if inp.isrFire then onStrobeTimer s fl else fl) then
          some (cInt ((checkConsentButton (handleWeb s inp.now inp.webReq).1
            inp.consentHeldMs inp.now).strobe_int * 255))
        else none) := by
  obtain ⟨w, held, e, isr, now⟩ := inp
  simp only at h
  subst h
  simp only [tick, if_true, checkEmergencyStop_eq]
  rw [applyState_not_active _ _ rfl]
  refine ⟨?_, ?_, ?_, ?_, ?_, ?_⟩ <;> first | rfl | trivial

/-- Claim C5 witness: the order theorem at the concrete override tick. -/
theorem estop_tick_order_witness :
    (tick s_c5 true inp_c5).1 =
      { checkConsentButton (handleWeb s_c5 inp_c5.now inp_c5.webReq).1 inp_c5.consentHeldMs
          inp_c5.now with active := false, consent := false }
    ∧ (tick s_c5 true inp_c5).1.active = false
    ∧ (tick s_c5 true inp_c5).1.consent = false
    ∧ (tick s_c5 true inp_c5).2.2.estopEmit = some inactiveEmit
    ∧ (tick s_c5 true inp_c5).2.2.finalEmit = inactiveEmit
    ∧ (tick s_c5 true inp_c5).2.2.pulse =
        (if (if inp_c5.isrFire then onStrobeTimer s_c5 true else true) then
          some (cInt ((checkConsentButton (handleWeb s_c5 inp_c5.now inp_c5.webReq).1
            inp_c5.consentHeldMs inp_c5.now).strobe_int * 255))
        else none) :=
  estop_tick_order s_c5 true inp_c5 (by decide)

/-! ## Claim C7 -/

/-- Claim C7 counterexample: applying the unknown preset name "nope" does
change MachineState — `preset_name` becomes "nope" — and the handler
replies HTTP 200 ok rather than returning an UnknownPreset error. -/
theorem unknown_preset_mutates_name_cex :
    (presetHandler "nope" initState).1.preset_name = "nope"
    ∧ initState.preset_name = "idle"
    ∧ (presetHandler "nope" initState).1 ≠ initState
    ∧ (presetHandler "nope" initState).2 = 200 := by
  decide

/-- Claim C7 (amended): applying a preset name outside the known library
leaves the disk speeds, strobe frequency, strobe intensity and spotlight
color unchanged, but overwrites `preset_name` with the requested name, and
the request is answered with HTTP 200 ok — no UnknownPreset error exists. -/
theorem unknown_preset_effect (name : String) (s : MachineState)
    (h : name ∉ knownPresets) :
    presetHandler name s = ({ s with preset_name := name }, 200) := by
  simp only [knownPresets, List.mem_cons, List.not_mem_nil, or_false, not_or] at h
  obtain ⟨h1, h2, h3, h4, h5⟩ := h
  unfold presetHandler loadPreset
  rw [if_neg h1, if_neg h2, if_neg h3, if_neg h4, if_neg h5]

/-- Claim C7 witness: the amended theorem at the unknown name "nope". -/
theorem unknown_preset_effect_witness :
    presetHandler "nope" initState = ({ initState with preset_name := "nope" }, 200) :=
  unknown_preset_effect "nope" initState (by decide)

/-! ## Claim C8 -/

/-- An already-activated session running the oceanic preset. -/
def s_c8 : MachineState :=
  loadPreset "oceanic" { initState with active := true, consent := true, session_start := 1000 }

/-- Claim C8 counterexample: with the consent gate already in the Activated
state, a further full 3-second hold does mutate MachineState — it resets
`session_start` from 1000 to 63000 and replaces the oceanic preset with the
default alpha_bloom — contradicting "no additional effect". -/
theorem consent_rehold_while_active_cex :
    s_c8.active = true
    ∧ s_c8.session_start = 1000 ∧ s_c8.preset_name = "oceanic" ∧ s_c8.disk1_rpm = 4
    ∧ (checkConsentButton s_c8 3000 60000).session_start = 63000
    ∧ (checkConsentButton s_c8 3000 60000).preset_name = "alpha_bloom"
    ∧ (checkConsentButton s_c8 3000 60000).disk1_rpm = 10
    ∧ checkConsentButton s_c8 3000 60000 ≠ s_c8 := by
  decide

/-- Claim C8 (amended): while the gate is Activated (`active = true`), a
hold shorter than 3000 ms has no effect on MachineState, but a further hold
of at least 3000 ms re-runs the activation action: it keeps `active` and
`consent` true, resets `session_start` to the new activation time, and
reloads the default alpha_bloom preset (overwriting the current preset). -/
theorem consent_rehold_effect (s : MachineState) (heldMs now : ℕ)
    (hact : s.active = true) :
    (heldMs < CONSENT_HOLD_MS → checkConsentButton s heldMs now = s)
    ∧ (CONSENT_HOLD_MS ≤ heldMs →
        (checkConsentButton s heldMs now).active = true
        ∧ (checkConsentButton s heldMs now).consent = true
        ∧ (checkConsentButton s heldMs now).session_start = now + CONSENT_HOLD_MS
        ∧ (checkConsentButton s heldMs now).preset_name = "alpha_bloom"
        ∧ (checkConsentButton s heldMs now).disk1_rpm = 10
        ∧ (checkConsentButton s heldMs now).strobe_hz = 0.5) := by
  constructor
  · intro hlt
    unfold checkConsentButton
    rw [if_neg (not_le.mpr hlt)]
  · intro hge
    unfold checkConsentButton
    rw [if_pos hge]
    unfold loadPreset
    rw [if_pos rfl]
    exact ⟨rfl, rfl, rfl, rfl, rfl, rfl⟩

/-- Claim C8 witness: the amended theorem at the Activated state `s_c8`
with a fresh 3000 ms hold. -/
theorem consent_rehold_effect_witness :
    (checkConsentButton s_c8 3000 60000).active = true
    ∧ (checkConsentButton s_c8 3000 60000).consent = true
    ∧ (checkConsentButton s_c8 3000 60000).session_start = 60000 + CONSENT_HOLD_MS
    ∧ (checkConsentButton s_c8 3000 60000).preset_name = "alpha_bloom"
    ∧ (checkConsentButton s_c8 3000 60000).disk1_rpm = 10
    ∧ (checkConsentButton s_c8 3000 60000).strobe_hz = 0.5 :=
  (consent_rehold_effect s_c8 3000 60000 (by decide)).2 (by decide)

/-! ## Claim C6 -/

/-- Reduce an `if` whose condition is the literal `true = true`. -/
theorem ite_cond_true {α : Sort _} {inst : Decidable (true = true)} (a b : α) :
    @ite α (true = true) inst a b = a :=
  if_pos rfl

/-- Reduce an `if` whose condition is the literal `false = true`. -/
theorem ite_cond_false {α : Sort _} {inst : Decidable (false = true)} (a b : α) :
    @ite α (false = true) inst a b = b :=
  if_neg (by simp)

/-- `loadPreset` never touches the `consent` field. -/
theorem loadPreset_consent (name : String) (s : MachineState) (c : Bool) :
    loadPreset name { s with consent := c } = { loadPreset name s with consent := c } := by
  cases s
  dsimp only [loadPreset]
  split_ifs <;> rfl

/-- `onStrobeTimer` never reads the `consent` field. -/
theorem onStrobeTimer_consent (s : MachineState) (fl c : Bool) :
    onStrobeTimer { s with consent := c } fl = onStrobeTimer s fl := by
  cases s
  rfl

/-- `applyState` never reads the `consent` field: it is carried through
unchanged and no emission depends on it. -/
theorem applyState_consent (s : MachineState) (now : ℕ) (c : Bool) :
    applyState { s with consent := c } now =
      ({ (applyState s now).1 with consent := c }, (applyState s now).2) := by
  cases s
  dsimp only [applyState, activeEmit]
  split_ifs <;> rfl

/-- `checkEmergencyStop` overwrites `consent`, so the incoming value is
irrelevant. -/
theorem checkEmergencyStop_consent (s : MachineState) (now : ℕ) (c : Bool) :
    checkEmergencyStop { s with consent := c } now = checkEmergencyStop s now := by
  cases s
  rfl

/-- `checkConsentButton` either leaves the state alone or overwrites
`consent` with `true`, so changing the incoming `consent` only changes the
`consent` field of the result. -/
theorem checkConsentButton_consent (s : MachineState) (c : Bool) (held now : ℕ) :
    ∃ c2, checkConsentButton { s with consent := c } held now =
      { checkConsentButton s held now with consent := c2 } := by
  cases s
  unfold checkConsentButton
  split_ifs with h
  · refine ⟨true, ?_⟩
    rw [← loadPreset_consent]
  · exact ⟨c, rfl⟩

/-- `server.handleClient` never reads the `consent` field. -/
theorem handleWeb_consent (s : MachineState) (now : ℕ) (w : Option WebReq) (c : Bool) :
    ∃ c2, handleWeb { s with consent := c } now w =
      ({ (handleWeb s now w).1 with consent := c2 }, (handleWeb s now w).2) := by
  rcases w with _ | req
  · exact ⟨c, by cases s; rfl⟩
  · cases req with
    | status => exact ⟨c, by cases s; rfl⟩
    | preset name =>
      refine ⟨c, ?_⟩
      dsimp only [handleWeb]
      rw [loadPreset_consent]
    | script => exact ⟨c, by cases s; rfl⟩
    | stop =>
      refine ⟨c, ?_⟩
      dsimp only [handleWeb]
      simp only [stopHandler_eq]

/-- The `consent` flag is never read by any per-tick operation: changing it
changes neither the pulse flag nor any of the tick's emissions, and in the
resulting state only the `consent` field can differ. -/
theorem tick_consent (s : MachineState) (c : Bool) (fl : Bool) (inp : TickInput) :
    ∃ c2, tick { s with consent := c } fl inp =
      ({ (tick s fl inp).1 with consent := c2 }, (tick s fl inp).2.1, (tick s fl inp).2.2) := by
  obtain ⟨w, held, e, isr, now⟩ := inp
  obtain ⟨cw, hw⟩ := handleWeb_consent s now w c
  obtain ⟨cc, hcc⟩ := checkConsentButton_consent (handleWeb s now w).1 cw held now
  cases e with
  | true =>
    refine ⟨(tick s fl ⟨w, held, true, isr, now⟩).1.consent, ?_⟩
    dsimp only [tick]
    rw [hw]
    dsimp only
    rw [hcc]
    simp only [if_true, ite_cond_true]
    rw [checkEmergencyStop_consent]
    cases isr with
    | false => rfl
    | true => rw [onStrobeTimer_consent]
  | false =>
    refine ⟨cc, ?_⟩
    dsimp only [tick]
    rw [hw]
    dsimp only
    rw [hcc]
    simp only [if_false, ite_cond_false]
    rw [applyState_consent]
    dsimp only
    cases isr with
    | false => rfl
    | true => rw [onStrobeTimer_consent]

/-- Consequence of `tick_consent`: runs that start from states differing
only in the `consent` flag produce identical output traces under every
input sequence. -/
theorem runTicks_consent (l : List TickInput) (s : MachineState) (c fl : Bool) :
    runTicks { s with consent := c } fl l = runTicks s fl l := by
  induction l generalizing s c fl with
  | nil => rfl
  | cons i rest ih =>
    obtain ⟨c2, h⟩ := tick_consent s c fl i
    simp only [runTicks]
    rw [h]
    dsimp only
    rw [ih]

/-- A consented active machine, to separate the two stop paths. -/
def s_c6 : MachineState := { initState with active := true, consent := true }

/-- Claim C6 counterexample: after the `POST /stop` handler the machine
state still has `consent = true`, while after the emergency stop it has
`consent = false`; the two resulting machine states are not identical, so
the two operations are not equivalent in effect on the state. -/
theorem stop_vs_estop_states_differ_cex :
    (stopHandler s_c6 5).1.consent = true
    ∧ (checkEmergencyStop s_c6 5).1.consent = false
    ∧ (stopHandler s_c6 5).1 ≠ (checkEmergencyStop s_c6 5).1 := by
  decide

/-- Claim C6 (amended): the stop request and the emergency stop emit
identical output on their tick and both deactivate the machine, and the
resulting states agree on every field except `consent`, which `/stop`
leaves unchanged while emergency stop clears it; since `consent` is never
read, every subsequent tick under any input sequence emits identical
output traces from the two states. -/
theorem stop_equiv_estop_except_consent (s : MachineState) (now : ℕ) (fl : Bool)
    (l : List TickInput) :
    (stopHandler s now).2 = (checkEmergencyStop s now).2
    ∧ (stopHandler s now).1 = { (checkEmergencyStop s now).1 with consent := s.consent }
    ∧ (stopHandler s now).1.active = false
    ∧ (checkEmergencyStop s now).1.active = false
    ∧ runTicks (stopHandler s now).1 fl l = runTicks (checkEmergencyStop s now).1 fl l := by
  rw [stopHandler_eq, checkEmergencyStop_eq]
  refine ⟨rfl, ?_, rfl, rfl, ?_⟩
  · cases s
    rfl
  · have h := runTicks_consent l { s with active := false, consent := false } s.consent fl
    cases s
    exact h

/-! ## Claim C9 -/

/-- An active session (led_bright 1, one lit spotlight channel) started at
t0 = 1000 ms, for the concrete fade scenario. -/
def s_c9 : MachineState :=
  { initState with active := true, session_start := 1000, spot_r := 80 }

/-- Claim C9: inside the fade window
`SESSION_MAX_S - FADE_OUT_S < elapsed <= SESSION_MAX_S`, `applyState`
multiplies only the brightness-like channels (spotlights and LED
brightness) by the fade multiplier
`1 - (elapsed - (SESSION_MAX_S - FADE_OUT_S)) / FADE_OUT_S`, while the
motor commands and the applied strobe frequency are the unfaded stored
values; at elapsed = 600 s the multiplier is 1/2 (concretely, LED
brightness 127 and spot 40 from 255 and 80), and at elapsed = 661 s the
machine becomes inactive. -/
theorem fade_window_multiplier (s : MachineState) (now : ℕ)
    (hact : s.active = true) (hss : 0 < s.session_start)
    (hlo : SESSION_MAX_S - FADE_OUT_S < elapsedS now s.session_start)
    (hhi : elapsedS now s.session_start ≤ SESSION_MAX_S) :
    (applyState s now).1 = s
    ∧ (applyState s now).2 =
        activeEmit s (s.led_bright *
          (1 - ((elapsedS now s.session_start - (SESSION_MAX_S - FADE_OUT_S) : ℕ) : ℚ) /
            (FADE_OUT_S : ℚ)))
    ∧ (applyState s now).2.motor1 = some (setMotorRPM s.disk1_rpm)
    ∧ (applyState s now).2.motor2 = some (setMotorRPM (-s.disk2_rpm))
    ∧ (applyState s now).2.motor3 = some (setMotorRPM s.disk3_rpm)
    ∧ (applyState s now).2.strobe =
        some (setStrobeFrequencyApplied (cMin s.strobe_hz STROBE_MAX_HZ))
    ∧ (elapsedS now s.session_start = 600 →
        1 - ((elapsedS now s.session_start - (SESSION_MAX_S - FADE_OUT_S) : ℕ) : ℚ) /
          (FADE_OUT_S : ℚ) = 1/2)
    ∧ (applyState s_c9 601000).2.ledBrightness = some 127
    ∧ (applyState s_c9 601000).2.spot_r = some 40
    ∧ (applyState s_c9 662000).1.active = false := by
  have key : applyState s now =
      (s, activeEmit s (s.led_bright *
        (1 - ((elapsedS now s.session_start - (SESSION_MAX_S - FADE_OUT_S) : ℕ) : ℚ) /
          (FADE_OUT_S : ℚ)))) := by
    unfold applyState
    rw [if_neg (by simp [hact]), if_pos hss, if_neg (not_lt.mpr hhi), if_pos hlo]
  rw [key]
  refine ⟨rfl, rfl, rfl, rfl, rfl, rfl, ?_, by decide, by decide, by decide⟩
  intro h600
  rw [h600]
  norm_num [SESSION_MAX_S, FADE_OUT_S]

/-- Claim C9 witness: the fade theorem at the concrete state `s_c9` and
`now = 601000` (elapsed exactly 600 s). -/
theorem fade_window_multiplier_witness :
    (applyState s_c9 601000).1 = s_c9
    ∧ (applyState s_c9 601000).2 =
        activeEmit s_c9 (s_c9.led_bright *
          (1 - ((elapsedS 601000 s_c9.session_start - (SESSION_MAX_S - FADE_OUT_S) : ℕ) : ℚ) /
            (FADE_OUT_S : ℚ))) :=
  ⟨(fade_window_multiplier s_c9 601000 (by decide) (by decide) (by decide) (by decide)).1,
   (fade_window_multiplier s_c9 601000 (by decide) (by decide) (by decide) (by decide)).2.1⟩

/-! ## Claim C10 -/

/-- An active state with a valid strobe frequency (alpha_bloom values), as
it stands at the end of a loop iteration when the strobe timer fires. -/
def s_c10 : MachineState :=
  { initState with active := true, consent := true, strobe_hz := 0.5, strobe_int := 0.6
                   session_start := 3000, preset_name := "alpha_bloom" }

/-- The next loop iteration: the emergency-stop override is asserted and no
new ISR firing is modelled; the pulse flag is already pending. -/
def inp_c10 : TickInput :=
  { webReq := none, consentHeldMs := 0, estop := true, isrFire := false, now := 4000 }

/-- A tick on which the ISR fires at entry and nothing else happens. -/
def inp_c10w : TickInput :=
  { webReq := none, consentHeldMs := 0, estop := false, isrFire := true, now := 4000 }

/-- Claim C10 counterexample: the ISR legitimately arms the pulse flag
while the machine is active with a valid frequency, but on the next
iteration the emergency stop deactivates the machine (quiescent output
emitted) and the pending pulse is still emitted afterwards in that same
iteration — a strobe pulse (duty 153) is emitted while the machine is
inactive. -/
theorem stale_pulse_after_estop_cex :
    onStrobeTimer s_c10 false = true
    ∧ (tick s_c10 true inp_c10).2.2.estopEmit = some inactiveEmit
    ∧ (tick s_c10 true inp_c10).2.2.pulse = some 153
    ∧ (tick s_c10 true inp_c10).1.active = false := by
  decide

/-- Claim C10 (amended): the ISR sets the pulse flag only when the machine
is active and the stored strobe frequency lies in `(0, STROBE_MAX_HZ]`, and
with no pending flag a tick emits a pulse only if the ISR fired at its
entry in such a state; a pending pulse may however still be emitted on a
tick that deactivates the machine earlier in the same iteration, so a pulse
can fire while the machine is already inactive (at most one, since the flag
is consumed). -/
theorem pulse_only_armed_while_active (s : MachineState) (fl : Bool) (inp : TickInput) :
    (onStrobeTimer s fl = true →
      fl = true ∨ (s.active = true ∧ 0 < s.strobe_hz ∧ s.strobe_hz ≤ STROBE_MAX_HZ))
    ∧ ((tick s false inp).2.2.pulse ≠ none →
        inp.isrFire = true ∧ s.active = true ∧ 0 < s.strobe_hz
        ∧ s.strobe_hz ≤ STROBE_MAX_HZ) := by
  obtain ⟨w, held, e, isr, now⟩ := inp
  constructor
  · intro h
    unfold onStrobeTimer at h
    by_cases hc : s.active = true ∧ 0 < s.strobe_hz ∧ s.strobe_hz ≤ STROBE_MAX_HZ
    · exact Or.inr hc
    · rw [if_neg hc] at h
      exact Or.inl h
  · intro h
    cases isr with
    | false => exact absurd rfl h
    | true =>
      by_cases hc : s.active = true ∧ 0 < s.strobe_hz ∧ s.strobe_hz ≤ STROBE_MAX_HZ
      · exact ⟨rfl, hc.1, hc.2.1, hc.2.2⟩
      · exfalso
        apply h
        simp only [tick, onStrobeTimer]
        simp [hc]

/-- Claim C10 witness: both parts of the amended theorem at the concrete
armed state `s_c10`. -/
theorem pulse_only_armed_while_active_witness :
    (false = true ∨ (s_c10.active = true ∧ 0 < s_c10.strobe_hz
      ∧ s_c10.strobe_hz ≤ STROBE_MAX_HZ))
    ∧ (inp_c10w.isrFire = true ∧ s_c10.active = true ∧ 0 < s_c10.strobe_hz
      ∧ s_c10.strobe_hz ≤ STROBE_MAX_HZ) :=
  ⟨(pulse_only_armed_while_active s_c10 false inp_c10w).1 (by decide),
   (pulse_only_armed_while_active s_c10 false inp_c10w).2 (by decide)⟩

end DecideOnRat

end FlashyFlesh
